import Mathlib

/-!
Shallow embedding of `scripts/run_daily.py`: the result-classification and
submission-gating logic of the o2-report script, together with the
book-keeping around the daily-dedup marker and the top-level error handling.

Browser automation (Playwright calls, DOM lookups) is modelled as an
environment of outcomes fed to the control flow that the script actually
executes; all string manipulation is translated directly from the source.
-/

set_option maxRecDepth 100000
set_option maxHeartbeats 1000000

namespace O2Report

/-- Python prefix test: `leadMatch needle hay` is true iff `needle` is an
initial segment of `hay` (helper for the substring operator `in`). -/
def leadMatch : List Char → List Char → Bool
  | [], _ => true
  | _ :: _, [] => false
  | n :: ns, h :: hs => n == h && leadMatch ns hs

/-- Python substring operator `needle in hay` on character lists. -/
def charsContain (needle : List Char) : List Char → Bool
  | [] => needle.isEmpty
  | h :: hs => leadMatch needle (h :: hs) || charsContain needle hs

/-- Python `needle in hay` on strings. -/
def pyContains (needle hay : String) : Bool :=
  charsContain needle.data hay.data

/-- Python `str.lower`, modelled on the characters that occur in this
script's phrases: ASCII letters (via `Char.toLower`) and the German capital
umlauts Ä/Ö/Ü.  All other characters are left unchanged. -/
def pyLowerChar (c : Char) : Char :=
  if c = 'Ä' then 'ä'
  else if c = 'Ö' then 'ö'
  else if c = 'Ü' then 'ü'
  else c.toLower

/-- Python `str.lower` applied characterwise to a string. -/
def pyLower (s : String) : String :=
  ⟨s.data.map pyLowerChar⟩

/-- `TRIGGER_PHRASE` constant (run_daily.py line 19). -/
def TRIGGER_PHRASE : String :=
  "Eine Basisstation in der Nähe funktioniert im Moment nicht einwandfrei."

/-- `NO_OUTAGE_PHRASE` constant (run_daily.py line 96). -/
def NO_OUTAGE_PHRASE : String :=
  "Unser Netz funktioniert störungsfrei"

/-- `classify_result` (run_daily.py lines 99-109): lowercase the text and
test the German status phrases in fixed priority order. -/
def classify_result (text : String) : String :=
  let t := pyLower text
  if pyContains "störungsfrei" t then "ok"
  else if pyContains "keine störung" t || pyContains "keine stoerung" t
      || pyContains "keine störungen" t || pyContains "keine stoerungen" t then "ok"
  else if pyContains "wartungsarbeiten" t || pyContains "netzarbeiten" t
      || pyContains "arbeiten" t || pyContains "beeinträchtigungen" t then "maintenance"
  else if pyContains "störung" t || pyContains "stoerung" t then "outage"
  else "unknown"

example : classify_result "Unser Netz funktioniert störungsfrei in Ihrer Region." = "ok" := by decide
example : classify_result "Wir führen aktuell Wartungsarbeiten durch." = "maintenance" := by decide
example : classify_result "stoerungsfrei" = "outage" := by decide
example : classify_result "" = "unknown" := by decide

/-- `TEMPLATES` constant (run_daily.py lines 21-27), verbatim. -/
def TEMPLATES : List String := [
  "I am reporting slow internet speeds and weak signal at my home address. The data connection is very slow and the signal strength has dropped noticeably. I suspect the nearby base station has a problem. When I go out to other parts of the city or travel to places like Munich, the speed and signal are completely normal. This issue is specific to my home location and points to a local base station fault. Please check and repair the tower serving this area.",
  "At my home I am experiencing both poor signal strength and very slow mobile internet. This was not the case before and the problem started recently. When I leave and go into the city or to other cities like Munich, everything works perfectly with strong signal and fast data. The issue is clearly with the base station near my home. Please investigate the local tower and restore normal service.",
  "I am affected by weak signal and slow data speeds at home. The internet is barely usable and the signal keeps dropping. However, when I travel to the city center or other cities such as Munich, the O2 network works without any issues. This confirms the problem is not with my device but with the local base station near my home. I request that the technical team inspect and fix the tower.",
  "My mobile signal at home has become weak and internet speeds are extremely slow. It used to work well at this location before. I have tested at other places in the city and in Munich where the network is fast and the signal is strong. This tells me the nearby base station is not functioning properly. Please send a technician to check the base station and restore the coverage at my home address.",
  "I want to report poor signal and slow internet at my home. Both the signal strength and data speed have degraded significantly at this address. The problem does not occur when I am in other areas of the city or when I visit other cities like Munich where O2 works perfectly. I believe the base station serving my home area has a fault. Please prioritize repairing the local tower so the service returns to normal."]

/-- Python `str.replace old new` for a single-character `old` (each
`sanitize` call in run_daily.py replaces one character by a string). -/
def pyReplaceChar (old : Char) (new : List Char) (s : List Char) : List Char :=
  s.flatMap (fun c => if c = old then new else [c])

/-- `sanitize` inside `fill_and_submit_form` (run_daily.py lines 250-257):
replace typographic quotes, dashes and the ellipsis by ASCII equivalents,
in the order the source applies the replacements. -/
def sanitize (s : List Char) : List Char :=
  let s := pyReplaceChar '„' ['"'] s
  let s := pyReplaceChar '“' ['"'] s
  let s := pyReplaceChar '‚' [Char.ofNat 39] s
  let s := pyReplaceChar '‘' [Char.ofNat 39] s
  let s := pyReplaceChar '”' ['"'] s
  let s := pyReplaceChar '‟' ['"'] s
  let s := pyReplaceChar '’' [Char.ofNat 39] s
  let s := pyReplaceChar '–' ['-'] s
  let s := pyReplaceChar '—' ['-'] s
  let s := pyReplaceChar '…' ['.', '.', '.'] s
  s

/-- `comment = sanitize(f"{message}\n\n{full_result_text}")`
(run_daily.py line 260). -/
def composed_comment (message full_result_text : String) : String :=
  ⟨sanitize (message ++ "\n\n" ++ full_result_text).data⟩

/-- Python whitespace characters recognised by `str.strip` (ASCII range). -/
def pyIsSpace (c : Char) : Bool :=
  c = ' ' || c = '\t' || c = '\n' || c = Char.ofNat 11 || c = Char.ofNat 12 || c = '\r'

/-- Python `str.strip`: drop whitespace at both ends. -/
def pyStrip (s : String) : String :=
  ⟨((s.data.dropWhile pyIsSpace).reverse.dropWhile pyIsSpace).reverse⟩

/-- Python exception value: class name (`exc.__class__.__name__`) and
message (`str(exc)`). -/
structure PyExc where
  cls : String
  msg : String
deriving DecidableEq

/-- Outcomes of the DOM interactions performed by `fill_and_submit_form`
(run_daily.py lines 178-339); each field is the result of one of the
browser probes the function branches on, in source order.  `templateIdx`
is the index drawn by `random.choice(TEMPLATES)`. -/
structure FormEnv where
  buttonClicked : Bool
  formReady : Bool
  templateIdx : Nat
  commentFilled : Bool
  phoneFilled : Bool
  preErrors : List String
  submitClicked : Bool
  postErrors : List String
  confirmation : String
deriving DecidableEq

/-- `fill_and_submit_form` (run_daily.py lines 178-339) as a function of
the DOM outcomes: returns `(submitted, confirmation_or_reason, message)`,
mirroring each `return` of the source in order. -/
def fill_and_submit_form (env : FormEnv) (dry_run : Bool) : Bool × String × String :=
  if !env.buttonClicked then (false, "form_button_not_found", "")
  else if !env.formReady then (false, "form_not_opened", "")
  else
    let message := TEMPLATES.getD env.templateIdx ""
    if !env.commentFilled then (false, "comment_not_filled", "")
    else if !env.phoneFilled then (false, "phone_not_filled", message)
    else if dry_run then (false, "dry_run_stopped_before_submit", message)
    else if !env.preErrors.isEmpty then
      (false, "validation_errors: " ++ String.intercalate "; " env.preErrors, message)
    else if !env.submitClicked then (false, "submit_not_clicked", message)
    else if !env.postErrors.isEmpty then
      (false, "validation_errors: " ++ String.intercalate "; " env.postErrors, message)
    else
      let conf := pyStrip env.confirmation
      (true, if conf.isEmpty then "confirmation_not_found" else conf, message)

/-- `SubmissionState` (spec §3): the file-backed daily-dedup marker
`data/.last_submit_date`; `none` models an absent file. -/
structure SubmissionState where
  lastSubmitDate : Option String
deriving DecidableEq

/-- `was_submitted_today` (run_daily.py lines 71-82).  `file` models the
marker file: `none` = file does not exist, `some (.error e)` = reading
raised, `some (.ok c)` = contents `c` were read.  `today` is the current
Berlin-local ISO date. -/
def was_submitted_today (file : Option (Except PyExc String)) (today : String) : Bool :=
  match file with
  | none => false
  | some (.error _) => false
  | some (.ok content) => pyStrip content == today

/-- Context of the submission gate (spec §4.1 `decideSubmission`). -/
structure SubCtx where
  isTriggerDay : Bool
  dryRun : Bool
  forceSubmit : Bool
  alreadySubmittedToday : Bool
deriving DecidableEq

/-- Result of the submission gate. -/
structure Decision where
  attempt : Bool
  reason : String
deriving DecidableEq

/-- The submission gate of `run_check` (run_daily.py lines 450-468): the
nested conditionals deciding whether the form-submission `try` block at
line 457 is reached, with that body abstracted to `attempt := true`.
`reason` is the `submit_reason` those branches assign (`""` when no gate
fired, matching the initialisation at line 448). -/
def decideSubmission (text : String) (ctx : SubCtx) : Decision :=
  if pyContains TRIGGER_PHRASE text then
    if ctx.isTriggerDay || ctx.dryRun || ctx.forceSubmit then
      if ctx.isTriggerDay && !ctx.dryRun && !ctx.forceSubmit && ctx.alreadySubmittedToday then
        ⟨false, "already_submitted_today"⟩
      else ⟨true, ""⟩
    else ⟨false, "outage_detected_but_form_only_on_mondays"⟩
  else ⟨false, ""⟩

/-- Outcome of one run's submission step: `reason` is the final `reason`
column of the log row (run_daily.py line 498: confirmation when submitted,
`submit_reason` otherwise), and `state` the marker state after the run. -/
structure SubmitOutcome where
  submitted : Bool
  reason : String
  messageSent : String
  state : SubmissionState
deriving DecidableEq

/-- The submission step of `run_check` (run_daily.py lines 446-468
together with line 498): gate, form interaction, the `except` downgrade at
lines 464-466, and the `mark_submitted_today` book-keeping at line 463
(modelled as the state update to `some today`).  `form` is `.error exc`
when `fill_and_submit_form` raises, `.ok env` otherwise. -/
def run_submit_block (full_text : String) (isMonday dryRun forceSubmit : Bool)
    (alreadySubmittedToday : Bool) (form : Except PyExc FormEnv)
    (st : SubmissionState) (today : String) : SubmitOutcome :=
  if pyContains TRIGGER_PHRASE full_text then
    if isMonday || dryRun || forceSubmit then
      if isMonday && !dryRun && !forceSubmit && alreadySubmittedToday then
        ⟨false, "already_submitted_today", "", st⟩
      else
        match form with
        | .error exc =>
          ⟨false, "exception: " ++ exc.cls ++ ": " ++ exc.msg, "", st⟩
        | .ok env =>
          let fr := fill_and_submit_form env dryRun
          if fr.1 then
            if !dryRun then ⟨true, fr.2.1, fr.2.2, ⟨some today⟩⟩
            else ⟨true, fr.2.1, fr.2.2, st⟩
          else ⟨false, fr.2.1, fr.2.2, st⟩
    else ⟨false, "outage_detected_but_form_only_on_mondays", "", st⟩
  else ⟨false, "", "", st⟩

/-- One run's log record (spec §3 RunResult), the five values `run_check`
returns at line 499. -/
structure RunResult where
  status : String
  resultText : String
  formSubmitted : String
  reason : String
  messageSent : String
deriving DecidableEq

/-- `main` (run_daily.py lines 502-524): the record starts from the error
defaults (lines 511-515), `run_check` runs inside try/except with any
exception downgraded to the `error: ...` reason (lines 518-519), and the
function falls off its end, so the process exit code — the second
component — is always 0. -/
def main_run (run : Except PyExc RunResult) : RunResult × Nat :=
  match run with
  | .ok r => (r, 0)
  | .error exc =>
    (⟨"error", "", "no", "error: " ++ exc.cls ++ ": " ++ exc.msg, ""⟩, 0)

/-- A fully successful form environment, for concrete evaluations. -/
def envOk : FormEnv :=
  ⟨true, true, 0, true, true, [], true, [], "Vielen Dank"⟩

example : (fill_and_submit_form envOk false).1 = true := by decide
example : fill_and_submit_form envOk true
    = (false, "dry_run_stopped_before_submit", TEMPLATES.getD 0 "") := by decide
example : (run_submit_block TRIGGER_PHRASE false false true false (.ok envOk)
    ⟨none⟩ "2026-10-12").state = ⟨some "2026-10-12"⟩ := by decide
example : decideSubmission "" ⟨false, false, false, false⟩ = ⟨false, ""⟩ := by decide

/-! ### Helper lemmas -/

/-- Every `return` of `fill_and_submit_form` reachable under `dry_run=True`
reports `submitted = False`: the dry-run stop at line 290 precedes the
submit click. -/
theorem fill_dry_run_never_submits (env : FormEnv) :
    (fill_and_submit_form env true).1 = false := by
  rcases env with ⟨b1, b2, ti, b3, b4, pe, b5, po, conf⟩
  cases b1 <;> cases b2 <;> cases b3 <;> cases b4 <;> simp [fill_and_submit_form]

/-- A characterwise replacement distributes over list append. -/
theorem pyReplaceChar_append (old : Char) (new : List Char) (a b : List Char) :
    pyReplaceChar old new (a ++ b) = pyReplaceChar old new a ++ pyReplaceChar old new b := by
  simp [pyReplaceChar]

/-- `sanitize` distributes over list append. -/
theorem sanitize_append (a b : List Char) :
    sanitize (a ++ b) = sanitize a ++ sanitize b := by
  simp [sanitize, pyReplaceChar_append]

/-- A replacement whose target character does not occur is the identity. -/
theorem pyReplaceChar_id (old : Char) (new : List Char) (s : List Char)
    (h : ∀ c ∈ s, c ≠ old) : pyReplaceChar old new s = s := by
  induction s with
  | nil => rfl
  | cons a as ih =>
    have ha : a ≠ old := h a (by simp)
    have has : ∀ c ∈ as, c ≠ old := fun c hc => h c (by simp [hc])
    simp only [pyReplaceChar, List.flatMap_cons] at ih ⊢
    simp [ha, ih has]

/-- All characters `sanitize` replaces are non-ASCII, so an ASCII-only
list is unchanged by it. -/
theorem sanitize_id_of_ascii (s : List Char) (h : ∀ c ∈ s, c.toNat < 128) :
    sanitize s = s := by
  have key : ∀ (old : Char) (new : List Char), 128 ≤ old.toNat →
      pyReplaceChar old new s = s := by
    intro old new hold
    refine pyReplaceChar_id old new s (fun c hc heq => ?_)
    have hlt := h c hc
    rw [heq] at hlt
    omega
  simp only [sanitize]
  rw [key _ _ (by decide), key _ _ (by decide), key _ _ (by decide),
    key _ _ (by decide), key _ _ (by decide), key _ _ (by decide),
    key _ _ (by decide), key _ _ (by decide), key _ _ (by decide),
    key _ _ (by decide)]

/-! ### Claim theorems -/

/-- C4: `classify_result` is a pure total function: for every input string
it returns exactly one of ok/maintenance/outage/unknown (never `error`),
and for the empty string it returns `unknown`. -/
theorem classify_total_and_empty_unknown :
    (∀ s : String, classify_result s = "ok" ∨ classify_result s = "maintenance"
      ∨ classify_result s = "outage" ∨ classify_result s = "unknown")
    ∧ classify_result "" = "unknown" := by
  constructor
  · intro s
    simp only [classify_result]
    split_ifs <;> simp
  · decide

/-- C3: first match wins in the fixed rule order: any string whose
lowercasing contains both "störungsfrei" and "störung" classifies as
`ok`, not `outage`. -/
theorem classify_priority_ok (s : String)
    (h1 : pyContains "störungsfrei" (pyLower s) = true)
    (_h2 : pyContains "störung" (pyLower s) = true) :
    classify_result s = "ok" := by
  unfold classify_result
  simp [h1]

/-- Witness for C3 at a concrete text containing both phrases. -/
theorem classify_priority_ok_witness :
    classify_result "Netz störungsfrei, keine aktuelle Störung" = "ok" :=
  classify_priority_ok _ (by decide) (by decide)

/-- C2, counterexample: an input containing the ASCII-folded variant
"stoerungsfrei" (and no other matching phrase) does not classify as `ok`;
rule 4 matches its "stoerung" infix and yields `outage`. -/
theorem classify_stoerungsfrei_counterexample :
    classify_result "stoerungsfrei" = "outage"
    ∧ classify_result "stoerungsfrei" ≠ "ok" := by decide

/-- C2 as amended: `classify_result` returns `ok` whenever the lowercased
input contains the umlaut spelling "störungsfrei"; the ASCII-folded
variant "stoerungsfrei" is not recognised by rule 1 (see the
counterexample, where it falls through to `outage`). -/
theorem classify_ok_of_umlaut_stoerungsfrei (s : String)
    (h : pyContains "störungsfrei" (pyLower s) = true) :
    classify_result s = "ok" := by
  unfold classify_result
  simp [h]

/-- Witness for the amended C2 at a concrete text. -/
theorem classify_ok_of_umlaut_stoerungsfrei_witness :
    classify_result "Unser Netz funktioniert störungsfrei in Ihrer Region." = "ok" :=
  classify_ok_of_umlaut_stoerungsfrei _ (by decide)

/-- C5, counterexample: with `isTriggerDay=false, dryRun=false,
forceSubmit=false` the decision on a text *without* the trigger phrase has
the empty reason of run_daily.py line 448, not
`outage_detected_but_form_only_on_mondays`. -/
theorem monday_gate_counterexample :
    (decideSubmission "" ⟨false, false, false, false⟩).attempt = false
    ∧ (decideSubmission "" ⟨false, false, false, false⟩).reason
        ≠ "outage_detected_but_form_only_on_mondays" := by decide

/-- C5 as amended: with `isTriggerDay=false, dryRun=false,
forceSubmit=false` no submission is ever attempted, and the reason is
`outage_detected_but_form_only_on_mondays` exactly when the trigger phrase
is present in the text (and empty otherwise). -/
theorem monday_gate_decision (text : String) (already : Bool) :
    (decideSubmission text ⟨false, false, false, already⟩).attempt = false
    ∧ (decideSubmission text ⟨false, false, false, already⟩).reason
      = (if pyContains TRIGGER_PHRASE text then "outage_detected_but_form_only_on_mondays"
         else "") := by
  unfold decideSubmission
  by_cases h : pyContains TRIGGER_PHRASE text = true <;> simp [h]

/-- C6: with the trigger present, `isTriggerDay=true` and
`alreadySubmittedToday=true`, a plain run is stopped with reason
`already_submitted_today`, while `forceSubmit=true` (or `dryRun=true`)
bypasses the dedup guard and attempts. -/
theorem daily_dedup_gate (text : String)
    (h : pyContains TRIGGER_PHRASE text = true) :
    decideSubmission text ⟨true, false, false, true⟩ = ⟨false, "already_submitted_today"⟩
    ∧ (decideSubmission text ⟨true, false, true, true⟩).attempt = true
    ∧ (decideSubmission text ⟨true, true, false, true⟩).attempt = true := by
  unfold decideSubmission
  simp [h]

/-- Witness for C6 at the trigger phrase itself. -/
theorem daily_dedup_gate_witness :
    decideSubmission TRIGGER_PHRASE ⟨true, false, false, true⟩
      = ⟨false, "already_submitted_today"⟩ :=
  (daily_dedup_gate TRIGGER_PHRASE (by decide)).1

/-- C7: trigger detection is exact-substring: an attempt implies the
trigger phrase occurs verbatim in the text, and any text not containing it
yields `attempt=false` with the empty (null) reason, for every context. -/
theorem trigger_exact_substring (text : String) (ctx : SubCtx) :
    ((decideSubmission text ctx).attempt = true → pyContains TRIGGER_PHRASE text = true)
    ∧ (pyContains TRIGGER_PHRASE text = false → decideSubmission text ctx = ⟨false, ""⟩) := by
  unfold decideSubmission
  by_cases h : pyContains TRIGGER_PHRASE text = true
  · simp [h]
  · simp only [Bool.not_eq_true] at h
    simp [h]

/-- Witness for C7: the trigger phrase with its first letter lowercased
(one character off, case-sensitively) never attempts and has null reason. -/
theorem trigger_exact_substring_witness :
    decideSubmission "eine Basisstation in der Nähe funktioniert im Moment nicht einwandfrei."
        ⟨true, false, true, false⟩ = ⟨false, ""⟩ :=
  (trigger_exact_substring _ _).2 (by decide)

/-- C1, counterexample: a forced (`forceSubmit=true`), non-dry-run,
successful submission on a non-Monday *does* update the daily-dedup
marker, contrary to the claim that forced runs leave it unchanged. -/
theorem forced_run_updates_marker :
    (run_submit_block TRIGGER_PHRASE false false true false (.ok envOk)
        ⟨none⟩ "2026-10-12").state = ⟨some "2026-10-12"⟩
    ∧ (⟨some "2026-10-12"⟩ : SubmissionState) ≠ ⟨none⟩ := by decide

/-- C1 as amended: the daily-dedup marker is updated exactly when the
submission succeeded and the run is not a dry run: a dry run never reports
success and leaves the marker unchanged; every successful (non-dry-run)
submission — forced or not — sets it to the current date; an unsuccessful
attempt leaves it unchanged. -/
theorem run_submit_marker_update (full_text : String)
    (isMonday dryRun forceSubmit already : Bool) (form : Except PyExc FormEnv)
    (st : SubmissionState) (today : String) :
    (dryRun = true →
      (run_submit_block full_text isMonday dryRun forceSubmit already form st today).submitted = false
      ∧ (run_submit_block full_text isMonday dryRun forceSubmit already form st today).state = st)
    ∧ ((run_submit_block full_text isMonday dryRun forceSubmit already form st today).submitted = true →
      (run_submit_block full_text isMonday dryRun forceSubmit already form st today).state
        = ⟨some today⟩)
    ∧ ((run_submit_block full_text isMonday dryRun forceSubmit already form st today).submitted = false →
      (run_submit_block full_text isMonday dryRun forceSubmit already form st today).state = st) := by
  cases form with
  | error exc =>
    cases dryRun <;>
      · simp only [run_submit_block]
        split_ifs <;> simp
  | ok env =>
    cases dryRun with
    | false =>
      simp only [run_submit_block]
      rcases hf : (fill_and_submit_form env false).1 <;> split_ifs <;> simp_all
    | true =>
      simp only [run_submit_block]
      rcases hf : (fill_and_submit_form env true).1 <;>
        split_ifs <;> simp_all [fill_dry_run_never_submits]

/-- Witness for the amended C1: a forced successful run writes today's
date into the marker. -/
theorem run_submit_marker_update_witness :
    (run_submit_block TRIGGER_PHRASE false false true false (.ok envOk)
        ⟨none⟩ "2026-10-12").state = ⟨some "2026-10-12"⟩ :=
  (run_submit_marker_update TRIGGER_PHRASE false false true false (.ok envOk)
      ⟨none⟩ "2026-10-12").2.1 (by decide)

/-- C8, counterexample: the composed comment is `sanitize` of
template + blank line + text, so for a scraped text containing a
typographic apostrophe (U+2019) it differs from the plain concatenation
the claim states. -/
theorem composed_comment_counterexample :
    composed_comment (TEMPLATES.getD 0 "") "’"
      ≠ (TEMPLATES.getD 0 "") ++ "\n\n" ++ "’" := by decide

/-- C8 as amended: for every template of the fixed set and every scraped
text, the composed comment equals the template, a blank line, then the
*sanitized* scraped text (typographic quotes/dashes/ellipsis folded to
ASCII); the templates themselves are unchanged by sanitization. -/
theorem composed_comment_amended (message text : String)
    (h : message ∈ TEMPLATES) :
    composed_comment message text
      = message ++ "\n\n" ++ (⟨sanitize text.data⟩ : String) := by
  have hs : sanitize message.data = message.data := by
    refine sanitize_id_of_ascii _ ?_
    fin_cases h <;> decide
  have hb : sanitize ("\n\n" : String).data = ("\n\n" : String).data :=
    sanitize_id_of_ascii _ (by decide)
  apply String.ext
  simp only [composed_comment, String.data_append, sanitize_append, hs, hb]

/-- Witness for the amended C8 at a concrete template and text. -/
theorem composed_comment_amended_witness :
    composed_comment (TEMPLATES.getD 1 "") "Netz gest’ört"
      = (TEMPLATES.getD 1 "") ++ "\n\n"
        ++ (⟨sanitize ("Netz gest’ört" : String).data⟩ : String) :=
  composed_comment_amended _ _ (by decide)

/-- C9: every exception from the run is downgraded by `main`'s top-level
try/except to a record with status `error` and a reason embedding the
exception class and message, and the process exit code is 0 in both the
exceptional and the normal case. -/
theorem main_always_exit_zero (exc : PyExc) (r : RunResult) :
    (main_run (.error exc)).2 = 0
    ∧ (main_run (.ok r)).2 = 0
    ∧ (main_run (.error exc)).1.status = "error"
    ∧ (main_run (.error exc)).1.formSubmitted = "no"
    ∧ (main_run (.error exc)).1.reason = "error: " ++ exc.cls ++ ": " ++ exc.msg := by
  simp [main_run]

/-- C10: a missing marker file, or one whose read raises, makes
`was_submitted_today` return false, so the dedup gate lets a submission
attempt through on a trigger Monday. -/
theorem marker_missing_treated_unsubmitted (today : String) (exc : PyExc) :
    was_submitted_today none today = false
    ∧ was_submitted_today (some (.error exc)) today = false
    ∧ (decideSubmission TRIGGER_PHRASE
        ⟨true, false, false, was_submitted_today none today⟩).attempt = true := by
  refine ⟨rfl, rfl, ?_⟩
  show (decideSubmission TRIGGER_PHRASE ⟨true, false, false, false⟩).attempt = true
  decide

end O2Report
